import Mathlib

/-!
Shallow embedding of the lavaudio control-plane client (Node connection,
Manager registry/selector, Player session state machine) and verification
of its specification claims.

Modelling conventions:
* JS numbers are modelled as rationals; the one place where IEEE special
  values are observable (the `leastUsedNodes` sort key, where a fresh node
  divides by zero cores) uses an explicit `JSNum` type with NaN/Infinity.
* Exponentiation with a non-integer exponent (`**` in `calcPenalties`) is
  an explicit function parameter `pw`, shared by code-side and spec-side
  definitions.
* Stateful methods become pure functions returning the new state together
  with the list of externally visible actions (wire commands handed to the
  node, event-emitter notifications, voice-gateway transfer callbacks).
* Methods that can `throw` return `Except Err`; the error constructors
  mirror the runtime error classes (`Error("Nothing is playing")`,
  `RangeError`, `TypeError`, the unknown-event `Error`).
* The JS timer runtime (`setTimeout`/`clearTimeout`) is modelled by a list
  of pending timer ids plus a fresh-id counter stored on the node.
-/

namespace Lavaudio

/-- Notification names emitted through the manager/player EventEmitter. -/
inductive Evt
  | nodeConnect
  | nodeClose
  | nodeError
  | nodeReconnect
  | trackStart
  | trackEnd
  | trackStuck
  | trackException
  | queueEnd
  | socketClosed
  | playerDestroy
  | raw
  | debug
  deriving DecidableEq, Repr

/-- Filter sub-objects carried by a `filters`-typed wire command.
`noSub` is the payload of `cleanFilters`, which sends `op: filters` with
no sub-object at all. -/
inductive FilterSub
  | karaoke (level monoLevel filterBand filterWidth : ℚ)
  | timescale (speed pitch rate : ℚ)
  | tremolo (frequency depth : ℚ)
  | vibrato (frequency depth : ℚ)
  | rotation (rotationHz : ℚ)
  | distortion (sinOffset sinScale cosOffset cosScale tanOffset tanScale offset scale : ℚ)
  | channelMix (leftToLeft leftToRight rightToLeft rightToRight : ℚ)
  | lowPass (smoothing : ℚ)
  | noSub
  deriving DecidableEq, Repr

/-- Raw voice-server-update payload stored per guild (`VOICE_SERVER_UPDATE`
half of the correlation); the token field stands for the rest of the opaque
payload. -/
structure ServerData where
  guild_id : String
  token : String
  deriving DecidableEq, Repr

/-- Outbound wire commands (the `op`-tagged messages of section 6). -/
inductive Cmd
  | play (guildId track : String) (startTime volume : ℚ) (noReplace pause : Bool)
  | stop (guildId : String)
  | pause (guildId : String) (pause : Bool)
  | seek (guildId : String) (position : ℚ)
  | volume (guildId : String) (volume : ℚ)
  | equalizer (guildId : String) (bands : List (Nat × ℚ))
  | filters (guildId : String) (sub : FilterSub)
  | voiceUpdate (guildId sessionId : String) (event : ServerData)
  | destroy (guildId : String)
  | configureResuming (key : String) (timeout : ℚ)
  deriving DecidableEq, Repr

/-- Externally visible effects of one operation, in program order:
`send` is a `node.send(...)` call made by a player, `transmit` is an actual
websocket transmission performed by a node, `emit` is an EventEmitter
notification (payloads elided), `transfer` is the host voice-gateway
callback (op 4 join/leave with the given channel id). -/
inductive Action
  | send (c : Cmd)
  | transmit (c : Cmd)
  | emit (e : Evt)
  | transfer (guildId : String) (channelId : Option String)
  deriving DecidableEq, Repr

/-- Runtime error classes thrown by the player/manager methods. -/
inductive Err
  | notPlaying
  | rangeError
  | typeError
  | unknownEvent
  deriving DecidableEq, Repr

/-- The `{sessionId, event}` pair stored on a player once its voice link is
established (`Player.voiceUpdateState`). -/
structure VoiceUpdateState where
  sessionId : String
  event : ServerData
  deriving DecidableEq, Repr

/-- Per-guild playback session state (the `Player` class fields that the
claims are about; `state`, `timestamp` and `position`/`volume` mirrors kept
where used).  `track := none` models the constructor's empty `{}`;
`bands := none` models the field the constructor leaves `undefined`. -/
structure Player where
  guild : String
  voiceChannel : Option String
  textChannel : Option String
  trackRepeat : Bool
  queueRepeat : Bool
  playing : Bool
  paused : Bool
  track : Option String
  voiceUpdateState : Option VoiceUpdateState
  position : ℚ
  volume : ℚ
  queue : List String
  bands : Option (List ℚ)
  deriving DecidableEq, Repr

/-- `Player` constructor: every flag cleared, empty queue, no current
track, `bands` left uninitialized (the constructor never assigns it). -/
def Player.init (guild : String) (voiceChannel textChannel : Option String) : Player :=
  { guild := guild
    voiceChannel := voiceChannel
    textChannel := textChannel
    trackRepeat := false
    queueRepeat := false
    playing := false
    paused := false
    track := none
    voiceUpdateState := none
    position := 0
    volume := 100
    queue := []
    bands := none }

/-- `PlayOptions` of `Player.play`; `none` models an absent field, resolved
with `??` (nullish coalescing) in the source. -/
structure PlayOptions where
  startTime : Option ℚ
  volume : Option ℚ
  noReplace : Option Bool
  pause : Option Bool
  deriving DecidableEq, Repr

/-- The empty options object `{}`. -/
def PlayOptions.empty : PlayOptions :=
  { startTime := none, volume := none, noReplace := none, pause := none }

/-- JS `x || d` on a number: `d` is used when `x` is falsy (zero). -/
def jsor (x d : ℚ) : ℚ := if x = 0 then d else x

/-- JS `x || d` where `x` may also be `undefined`. -/
def jsorOpt (x : Option ℚ) (d : ℚ) : ℚ :=
  match x with
  | none => d
  | some v => jsor v d

/-- `Player.play`: no-op (returning `null`) when the queue head is absent;
otherwise marks playing, records the head as current track, and sends a
`play` command with the `??`-defaulted overrides. -/
def Player.play (opts : PlayOptions) (p : Player) : Player × List Action :=
  match p.queue with
  | [] => (p, [])
  | sound :: _ =>
    ({ p with playing := true, track := some sound },
     [Action.send (Cmd.play p.guild sound (opts.startTime.getD 0) (opts.volume.getD 100)
        (opts.noReplace.getD false) (opts.pause.getD false))])

/-- `Player.stop(amount)`: for a numeric `amount > 1`, rejects an amount
exceeding the queue length, then `splice(0, amount - 1)` drops the first
`amount - 1` queue entries; in every non-throwing case a `stop` command is
sent. -/
def Player.stop (amount : Option ℤ) (p : Player) : Except Err (Player × List Action) :=
  match amount with
  | some a =>
    if 1 < a then
      if (p.queue.length : ℤ) < a then Except.error Err.rangeError
      else if a < 1 then Except.error Err.rangeError
      else Except.ok ({ p with queue := p.queue.drop (a - 1).toNat },
        [Action.send (Cmd.stop p.guild)])
    else Except.ok (p, [Action.send (Cmd.stop p.guild)])
  | none => Except.ok (p, [Action.send (Cmd.stop p.guild)])

/-- `Player.pause(state)`: no-op on an empty queue, otherwise flips the
playing/paused flags and sends a `pause` command.  (The runtime
boolean-type check always passes in this typed model.) -/
def Player.pause (state : Bool) (p : Player) : Player × List Action :=
  if p.queue.length = 0 then (p, [])
  else ({ p with playing := !state, paused := state },
    [Action.send (Cmd.pause p.guild state)])

/-- One `{band, gain}` equalizer band descriptor.  The source additionally
validates that the descriptor object has exactly these two keys; in this
typed model that shape is enforced by construction. -/
structure EqBand where
  band : Nat
  gain : ℚ
  deriving DecidableEq, Repr

/-- JS array element write `arr[band] = gain`, extending the array when the
index is past the end (holes padded with 0 in this model). -/
def bandsWrite (arr : List ℚ) (band : Nat) (gain : ℚ) : List ℚ :=
  if band < arr.length then arr.set band gain
  else arr ++ List.replicate (band - arr.length) 0 ++ [gain]

/-- `Player.setEQ(...bands)`: requires playing; rejects an empty band list
(the `!bands.length || ...` validation); then writes each gain into
`this.bands!` — which is a `TypeError` crash when the constructor-left
`bands` field was never initialized — and sends an `equalizer` command with
the enumerated gains. -/
def Player.setEQ (bands : List EqBand) (p : Player) : Except Err (Player × List Action) :=
  if p.playing = false then Except.error Err.notPlaying
  else if bands.length = 0 then Except.error Err.typeError
  else
    match p.bands with
    | none => Except.error Err.typeError
    | some arr =>
      let arr2 := bands.foldl (fun acc b => bandsWrite acc b.band b.gain) arr
      Except.ok ({ p with bands := some arr2 },
        [Action.send (Cmd.equalizer p.guild arr2.enum)])

/-- `Player.clearEQ()`: requires playing; reinitializes `bands` to sixteen
zero gains and sends the corresponding `equalizer` command. -/
def Player.clearEQ (p : Player) : Except Err (Player × List Action) :=
  if p.playing = false then Except.error Err.notPlaying
  else
    Except.ok ({ p with bands := some (List.replicate 16 (0 : ℚ)) },
      [Action.send (Cmd.equalizer p.guild (List.replicate 16 (0 : ℚ)).enum)])

/-- `Player.setKaraoke`: requires playing, sends the karaoke sub-object
with `||`-defaulted fields. -/
def Player.setKaraoke (level monoLevel filterBand filterWidth : Option ℚ) (p : Player) :
    Except Err (Player × List Action) :=
  if p.playing = false then Except.error Err.notPlaying
  else Except.ok (p, [Action.send (Cmd.filters p.guild (FilterSub.karaoke
    (jsorOpt level 1) (jsorOpt monoLevel 1) (jsorOpt filterBand 220) (jsorOpt filterWidth 100)))])

/-- `Player.setTimeScale`: requires playing, sends the timescale
sub-object. -/
def Player.setTimeScale (speed pitch rate : ℚ) (p : Player) :
    Except Err (Player × List Action) :=
  if p.playing = false then Except.error Err.notPlaying
  else Except.ok (p, [Action.send (Cmd.filters p.guild (FilterSub.timescale
    (jsor speed 1) (jsor pitch 1) (jsor rate 1)))])

/-- `Player.setTremolo`: requires playing, sends the tremolo sub-object. -/
def Player.setTremolo (freq depth : Option ℚ) (p : Player) :
    Except Err (Player × List Action) :=
  if p.playing = false then Except.error Err.notPlaying
  else Except.ok (p, [Action.send (Cmd.filters p.guild (FilterSub.tremolo
    (jsorOpt freq 2) (jsorOpt depth (1 / 2))))])

/-- `Player.setVibrato`: requires playing, sends the vibrato sub-object. -/
def Player.setVibrato (freq depth : Option ℚ) (p : Player) :
    Except Err (Player × List Action) :=
  if p.playing = false then Except.error Err.notPlaying
  else Except.ok (p, [Action.send (Cmd.filters p.guild (FilterSub.vibrato
    (jsorOpt freq 2) (jsorOpt depth (1 / 2))))])

/-- `Player.setRotation`: requires playing, sends the rotation
sub-object. -/
def Player.setRotation (rotation : ℚ) (p : Player) :
    Except Err (Player × List Action) :=
  if p.playing = false then Except.error Err.notPlaying
  else Except.ok (p, [Action.send (Cmd.filters p.guild (FilterSub.rotation
    (jsor rotation 0)))])

/-- `Player.setDistortion`: requires playing, sends the distortion
sub-object. -/
def Player.setDistortion
    (sinOffset sinScale cosOffset cosScale tanOffset tanScale offset scale : Option ℚ)
    (p : Player) : Except Err (Player × List Action) :=
  if p.playing = false then Except.error Err.notPlaying
  else Except.ok (p, [Action.send (Cmd.filters p.guild (FilterSub.distortion
    (jsorOpt sinOffset 0) (jsorOpt sinScale 1) (jsorOpt cosOffset 0) (jsorOpt cosScale 1)
    (jsorOpt tanOffset 0) (jsorOpt tanScale 1) (jsorOpt offset 0) (jsorOpt scale 1)))])

/-- `Player.setChannelMix`: requires playing, sends the channel-mix
sub-object. -/
def Player.setChannelMix (leftToLeft leftToRight rightToRight rightToLeft : Option ℚ)
    (p : Player) : Except Err (Player × List Action) :=
  if p.playing = false then Except.error Err.notPlaying
  else Except.ok (p, [Action.send (Cmd.filters p.guild (FilterSub.channelMix
    (jsorOpt leftToLeft 1) (jsorOpt leftToRight 0) (jsorOpt rightToLeft 0)
    (jsorOpt rightToRight 1)))])

/-- `Player.setLowPass`: requires playing, sends the low-pass
sub-object. -/
def Player.setLowPass (smooth : ℚ) (p : Player) :
    Except Err (Player × List Action) :=
  if p.playing = false then Except.error Err.notPlaying
  else Except.ok (p, [Action.send (Cmd.filters p.guild (FilterSub.lowPass
    (jsor smooth 20)))])

/-- `Player.cleanFilters`: requires playing, sends a `filters` command with
no sub-object. -/
def Player.cleanFilters (p : Player) : Except Err (Player × List Action) :=
  if p.playing = false then Except.error Err.notPlaying
  else Except.ok (p, [Action.send (Cmd.filters p.guild FilterSub.noSub)])

/-- `Player.connect({sessionId, event})`: stores the voice-update state and
sends a `voiceUpdate` command carrying both halves. -/
def Player.connect (data : VoiceUpdateState) (p : Player) : Player × List Action :=
  ({ p with voiceUpdateState := some data },
   [Action.send (Cmd.voiceUpdate p.guild data.sessionId data.event)])

/-- `Player.disconnect()`: `null` no-op without a voice channel; otherwise
unpauses if paused, asks the host to leave the channel (op 4 with a null
channel id), and clears the voice-channel field. -/
def Player.disconnect (p : Player) : Player × List Action :=
  match p.voiceChannel with
  | none => (p, [])
  | some _ =>
    let r := if p.paused = true then Player.pause false p else (p, [])
    ({ r.1 with voiceChannel := none },
     r.2 ++ [Action.transfer p.guild none])

/-- `Player.destroy()`: disconnects voice, sends a `destroy` command, emits
`playerDestroy`, and deletes the guild key from the registry's player map
(given here as an association list in insertion order). -/
def Player.destroy (p : Player) (players : List (String × Player)) :
    Player × List (String × Player) × List Action :=
  let r := p.disconnect
  (r.1, players.filter (fun e => decide (e.1 ≠ p.guild)),
   r.2 ++ [Action.send (Cmd.destroy p.guild), Action.emit Evt.playerDestroy])

/-- Inbound lifecycle event payload (`LavalinkOptions`): the `type` switch
key, the end `reason`, the websocket close `code` and the guild id. -/
structure LavalinkOptions where
  type : String
  reason : String
  code : ℤ
  guildId : String
  deriving DecidableEq, Repr

/-- `Player.lavalinkEvent(data)`: the lifecycle decision switch.  The
`TrackEndEvent` branch reproduces the source's early-return cascade:
track-repeat replays; queue-repeat with a short queue on FINISHED replays;
FINISHED with a short queue emits `queueEnd`, clears and stops; STOPPED
with two or more queued drops the head and plays (returning before any
`trackEnd` emission); STOPPED with a short queue clears and stops; any
remaining reason with two or more queued drops the head, plays, and then
emits `trackEnd`; otherwise only `trackEnd` is emitted.  An unrecognized
type throws. -/
def Player.lavalinkEvent (data : LavalinkOptions) (p : Player) :
    Except Err (Player × List Action) :=
  if data.type = "TrackStartEvent" then
    Except.ok (p, [Action.emit Evt.trackStart])
  else if data.type = "TrackEndEvent" then
    if p.trackRepeat = true then
      Except.ok (Player.play PlayOptions.empty p)
    else if p.queueRepeat = true ∧ p.queue.length ≤ 1 ∧ data.reason = "FINISHED" then
      Except.ok (Player.play PlayOptions.empty p)
    else if p.queue.length ≤ 1 ∧ data.reason = "FINISHED" then
      match Player.stop none { p with queue := [] } with
      | Except.ok r =>
        Except.ok ({ r.1 with playing := false, paused := false },
          Action.emit Evt.queueEnd :: r.2)
      | Except.error e => Except.error e
    else if 2 ≤ p.queue.length ∧ data.reason = "STOPPED" then
      Except.ok (Player.play PlayOptions.empty { p with queue := p.queue.tail })
    else if p.queue.length ≤ 1 ∧ data.reason = "STOPPED" then
      match Player.stop none { p with queue := [] } with
      | Except.ok r =>
        Except.ok ({ r.1 with playing := false, paused := false }, r.2)
      | Except.error e => Except.error e
    else if 2 ≤ p.queue.length then
      let r := Player.play PlayOptions.empty { p with queue := p.queue.tail }
      Except.ok (r.1, r.2 ++ [Action.emit Evt.trackEnd])
    else
      Except.ok (p, [Action.emit Evt.trackEnd])
  else if data.type = "TrackStuckEvent" then
    Except.ok ({ p with queue := p.queue.tail }, [Action.emit Evt.trackStuck])
  else if data.type = "TrackExceptionEvent" then
    Except.ok ({ p with queue := p.queue.tail }, [Action.emit Evt.trackException])
  else if data.type = "WebSocketClosedEvent" then
    if data.code = 4015 ∨ data.code = 4009 then
      Except.ok (p, [Action.transfer data.guildId p.voiceChannel, Action.emit Evt.socketClosed])
    else
      Except.ok (p, [Action.emit Evt.socketClosed])
  else
    Except.error Err.unknownEvent

/-- CPU section of a stats snapshot. -/
structure CpuStats where
  cores : ℚ
  systemLoad : ℚ
  lavalinkLoad : ℚ
  deriving DecidableEq, Repr

/-- Frame-statistics section of a stats snapshot. -/
structure FrameStats where
  sent : ℚ
  nulled : ℚ
  deficit : ℚ
  deriving DecidableEq, Repr

/-- Stats snapshot held on a node.  Because an inbound `stats` payload
replaces the whole snapshot (`this.stats = {...packet}`), the `cpu` and
`frameStats` sections may be absent afterwards; the constructor fills both
with zeroed sections. -/
structure NodeStats where
  players : ℚ
  playingPlayers : ℚ
  uptime : ℚ
  cpu : Option CpuStats
  frameStats : Option FrameStats
  deriving DecidableEq, Repr

/-- One node connection.  `packetQueue` is the outbound backlog;
`reconn` the stored reconnect-timer handle.  `pendingTimers`/`nextTimer`
model the JS timer runtime: ids of timers scheduled and not yet fired or
cancelled, plus a fresh-id counter. -/
structure Node where
  id : Option String
  host : String
  connected : Bool
  stats : NodeStats
  packetQueue : List Cmd
  reconn : Option Nat
  resumeKey : Option String
  resumeTout : ℚ
  pendingTimers : List Nat
  nextTimer : Nat
  deriving DecidableEq, Repr

/-- `Node` constructor: disconnected, empty backlog, no pending timer,
zeroed stats snapshot with both sections present. -/
def Node.init (id : Option String) (host : String) (resumeKey : Option String) : Node :=
  { id := id
    host := host
    connected := false
    stats :=
      { players := 0
        playingPlayers := 0
        uptime := 0
        cpu := some { cores := 0, systemLoad := 0, lavalinkLoad := 0 }
        frameStats := some { sent := 0, nulled := 0, deficit := 0 } }
    packetQueue := []
    reconn := none
    resumeKey := resumeKey
    resumeTout := 60
    pendingTimers := []
    nextTimer := 0 }

/-- `Node.calcPenalties`, parameterized by the exponentiation function `pw`
(JS `**`).  Accessing `stats.cpu.systemLoad` requires the cpu section, so
the result is `none` (a crash) when a stats payload lacked it; the
frame-based terms are computed only under the `if (this.stats.frameStats)`
truthiness guard, with the null-frame penalty doubled in place. -/
def Node.calcPenalties (pw : ℚ → ℚ → ℚ) (st : NodeStats) : Option ℤ :=
  match st.cpu with
  | none => none
  | some c =>
    let cpuPenalty := pw (1.05 : ℚ) (100 * c.systemLoad) * 10 - 10
    let deficitFramePenalty : ℚ :=
      match st.frameStats with
      | none => 0
      | some f => pw (1.03 : ℚ) (500 * (f.deficit / 3000)) * 600 - 600
    let nullFramePenalty : ℚ :=
      match st.frameStats with
      | none => 0
      | some f => (pw (1.03 : ℚ) (500 * (f.nulled / 3000)) * 300 - 300) * 2
    some (Int.floor (cpuPenalty + deficitFramePenalty + nullFramePenalty + st.playingPlayers))

/-- What `Node.send` reported to its caller: the new backlog length for a
queued payload (`Array.push`'s return value), or that it was handed to the
socket. -/
inductive SendRes
  | queued (n : Nat)
  | sent
  deriving DecidableEq, Repr

/-- `Node.send(payload)`: while not connected, appends to the backlog and
returns its new length; otherwise transmits immediately. -/
def Node.send (payload : Cmd) (s : Node) : Node × List Action × SendRes :=
  if s.connected = false then
    ({ s with packetQueue := s.packetQueue ++ [payload] }, [],
      SendRes.queued (s.packetQueue.length + 1))
  else (s, [Action.transmit payload], SendRes.sent)

/-- `Node.send` folded over a list of payloads, collecting the actions and
the per-call results in order. -/
def Node.sendAll (ps : List Cmd) (s : Node) : Node × List Action × List SendRes :=
  match ps with
  | [] => (s, [], [])
  | c :: rest =>
    let r := Node.send c s
    let r2 := Node.sendAll rest r.1
    (r2.1, r.2.1 ++ r2.2.1, r.2.2 :: r2.2.2)

/-- The websocket `open` handler: cancels a pending reconnect timer
(`clearTimeout`), sends a resume-configuration message if a resume key is
set (through `Node.send` — at this point `connected` is still false, so it
is queued), emits `nodeConnect`, and only then marks the node connected.
The backlog itself is not touched. -/
def Node.open (s : Node) : Node × List Action :=
  let s1 :=
    match s.reconn with
    | none => s
    | some t => { s with pendingTimers := s.pendingTimers.erase t }
  let r :=
    match s1.resumeKey with
    | none => (s1, ([] : List Action))
    | some key =>
      let q := Node.send (Cmd.configureResuming key s1.resumeTout) s1
      (q.1, q.2.1)
  ({ r.1 with connected := true }, r.2 ++ [Action.emit Evt.nodeConnect])

/-- `Node.reconnect()`: schedules a fresh reconnect timer after the
configured delay and stores its handle, without cancelling a previously
stored one. -/
def Node.reconnect (s : Node) : Node :=
  { s with reconn := some s.nextTimer
           pendingTimers := s.pendingTimers ++ [s.nextTimer]
           nextTimer := s.nextTimer + 1 }

/-- The websocket `close` handler: emits `nodeClose` and schedules a
reconnect unless the code is the normal closure 1000. -/
def Node.close (code : ℤ) (s : Node) : Node × List Action :=
  if code = 1000 then (s, [Action.emit Evt.nodeClose])
  else (Node.reconnect s, [Action.emit Evt.nodeClose])

/-- The websocket `error` handler: emits `nodeError` and always schedules
a reconnect. -/
def Node.error (s : Node) : Node × List Action :=
  (Node.reconnect s, [Action.emit Evt.nodeError])

/-- Association-list lookup, modelling `Map.get` over a map kept in
insertion order. -/
def alookup {α : Type} (k : String) : List (String × α) → Option α
  | [] => none
  | (k2, v) :: rest => if k = k2 then some v else alookup k rest

/-- Association-list update, modelling `Map.set`: replaces in place or
appends at the end. -/
def aset {α : Type} (k : String) (v : α) : List (String × α) → List (String × α)
  | [] => [(k, v)]
  | (k2, v2) :: rest => if k = k2 then (k, v) :: rest else (k2, v2) :: aset k v rest

/-- Association-list deletion, modelling `Map.delete`. -/
def adel {α : Type} (k : String) (l : List (String × α)) : List (String × α) :=
  l.filter (fun e => decide (e.1 ≠ k))

/-- Voice-state-update payload (`VOICE_STATE_UPDATE` half): the session id
is what correlation consumes; a `none` channel id models the falsy
channel of a leave event. -/
structure StateData where
  user_id : String
  channel_id : Option String
  guild_id : String
  session_id : String
  deriving DecidableEq, Repr

/-- A JS number as observable by the node-selection sort key: NaN, a
signed infinity, or a finite (here exact rational) value. -/
inductive JSNum
  | nan
  | inf (pos : Bool)
  | num (q : ℚ)
  deriving DecidableEq, Repr

/-- JS division of two finite numbers: `0/0` is NaN, `x/0` a signed
infinity, otherwise exact. -/
def jsDivQ (x y : ℚ) : JSNum :=
  if y = 0 then (if x = 0 then JSNum.nan else JSNum.inf (decide (0 < x))) else JSNum.num (x / y)

/-- JS multiplication by the positive literal 100, as in `... * 100`:
preserves NaN and the sign of an infinity. -/
def jsMul100 (a : JSNum) : JSNum :=
  match a with
  | JSNum.nan => JSNum.nan
  | JSNum.inf p => JSNum.inf p
  | JSNum.num q => JSNum.num (q * 100)

/-- The comparator key of `leastUsedNodes`:
`stats.cpu ? systemLoad / cores * 100 : 0`. -/
def nodeLoad (n : Node) : JSNum :=
  match n.stats.cpu with
  | some c => jsMul100 (jsDivQ c.systemLoad c.cores)
  | none => JSNum.num 0

/-- Sign test of the comparator difference `aLoad - bLoad` as consumed by
an ECMAScript `Array.prototype.sort`: a NaN comparator value is coerced to
+0, so the element is not moved; the result is true exactly when the
difference is NaN or not positive. -/
def jsCmpLe (a b : JSNum) : Bool :=
  match a, b with
  | JSNum.nan, _ => true
  | _, JSNum.nan => true
  | JSNum.inf p, JSNum.inf q => (p = q) || (p = false)
  | JSNum.inf p, JSNum.num _ => p = false
  | JSNum.num _, JSNum.inf q => q = true
  | JSNum.num x, JSNum.num y => decide (x ≤ y)

/-- Stable ordered insertion for the sort model: `a` is placed before the
first element `b` with `r a b`. -/
def orderedInsert {α : Type} (r : α → α → Bool) (a : α) : List α → List α
  | [] => [a]
  | b :: l => if r a b then a :: b :: l else b :: orderedInsert r a l

/-- Stable insertion sort, the model of `Array.prototype.sort` (which the
ECMAScript specification requires to be stable; for a consistent comparator
any stable sort produces this unique result). -/
def insertionSortL {α : Type} (r : α → α → Bool) : List α → List α
  | [] => []
  | a :: l => orderedInsert r a (insertionSortL r l)

/-- Manager state: bot user id, node registry in registration order,
player registry keyed by guild, and the two voice-correlation maps. -/
structure Manager where
  user : Option String
  nodes : List Node
  players : List (String × Player)
  voiceServers : List (String × ServerData)
  voiceStates : List (String × StateData)
  deriving DecidableEq, Repr

/-- `Manager.leastUsedNodes`: the connected nodes, sorted by the comparator
`aLoad - bLoad` on `nodeLoad`. -/
def Manager.leastUsedNodes (m : Manager) : List Node :=
  insertionSortL (fun a b => jsCmpLe (nodeLoad a) (nodeLoad b))
    (m.nodes.filter (fun n => n.connected))

/-- `Manager.connectionProcess(guildId)`: returns false without the server
half or without a player; otherwise calls `player.connect` with the stored
server payload and a session id taken from the state half when present,
falling back to `player.voiceUpdateState!.sessionId` — a `TypeError` crash
when that is also absent — and returns true. -/
def Manager.connectionProcess (m : Manager) (guildId : String) :
    Except Err (Manager × List Action × Bool) :=
  match alookup guildId m.voiceServers with
  | none => Except.ok (m, [], false)
  | some server =>
    match alookup guildId m.players with
    | none => Except.ok (m, [], false)
    | some player =>
      let sid : Option String :=
        match alookup guildId m.voiceStates with
        | some st => some st.session_id
        | none => player.voiceUpdateState.map (fun v => v.sessionId)
      match sid with
      | none => Except.error Err.typeError
      | some s =>
        let r := Player.connect { sessionId := s, event := server } player
        Except.ok ({ m with players := aset guildId r.1 m.players }, r.2, true)

/-- `Manager.voiceServersUpdate(data)`: stores the server half for the
guild and attempts correlation. -/
def Manager.voiceServersUpdate (data : ServerData) (m : Manager) :
    Except Err (Manager × List Action × Bool) :=
  Manager.connectionProcess
    { m with voiceServers := aset data.guild_id data m.voiceServers } data.guild_id

/-- `Manager.voiceStateUpdate(data)`: ignored unless the event is for the
bot's own user id (returning `undefined`, here `none`); with a channel id
it stores the state half and attempts correlation; without one it clears
both correlation halves for the guild. -/
def Manager.voiceStateUpdate (data : StateData) (m : Manager) :
    Except Err (Manager × List Action × Option Bool) :=
  if m.user ≠ some data.user_id then Except.ok (m, [], none)
  else
    match data.channel_id with
    | some _ =>
      match Manager.connectionProcess
          { m with voiceStates := aset data.guild_id data m.voiceStates } data.guild_id with
      | Except.ok r => Except.ok (r.1, r.2.1, some r.2.2)
      | Except.error e => Except.error e
    | none =>
      Except.ok ({ m with voiceServers := adel data.guild_id m.voiceServers
                          voiceStates := adel data.guild_id m.voiceStates }, [], none)

/-- Spec-side (section 4.3) elementary action: replay the current queue
head — mark playing, record it as current track, and send a `play` command
with default overrides; nothing happens on an empty queue. -/
def replayHead (p : Player) : Player × List Action :=
  match p.queue with
  | [] => (p, [])
  | t :: _ =>
    ({ p with playing := true, track := some t },
     [Action.send (Cmd.play p.guild t 0 100 false false)])

/-- The end-of-track decision table of spec section 4.3, amended to match
the implementation: track-repeat replays the head for every end reason;
on FINISHED with at most one queued, queue-repeat replays, else `queueEnd`
is emitted, the queue cleared, `stop` sent and the flags cleared; on
STOPPED the head is dropped and the next head played when two or more are
queued (with no `trackEnd` notification), else the queue is cleared, `stop`
sent and the flags cleared; for any other combination the head is dropped
and played when two or more are queued, and `trackEnd` is emitted. -/
def trackEndTable (reason : String) (p : Player) : Player × List Action :=
  if p.trackRepeat = true then replayHead p
  else if reason = "FINISHED" ∧ p.queue.length ≤ 1 then
    (if p.queueRepeat = true then replayHead p
     else ({ p with queue := [], playing := false, paused := false },
       [Action.emit Evt.queueEnd, Action.send (Cmd.stop p.guild)]))
  else if reason = "STOPPED" then
    (if 2 ≤ p.queue.length then replayHead { p with queue := p.queue.tail }
     else ({ p with queue := [], playing := false, paused := false },
       [Action.send (Cmd.stop p.guild)]))
  else if 2 ≤ p.queue.length then
    let r := replayHead { p with queue := p.queue.tail }
    (r.1, r.2 ++ [Action.emit Evt.trackEnd])
  else (p, [Action.emit Evt.trackEnd])

/-- Penalty formula exactly as the specification words it:
`floor(cpuPenalty + deficitFramePenalty + 2*nullFramePenalty +
playingPlayers)`, the frame-based terms contributing zero when frame
statistics are absent; a pure function of the system load, the optional
(deficit, nulled) pair, and the playing-player count. -/
def penaltySpec (pw : ℚ → ℚ → ℚ) (systemLoad : ℚ) (frames : Option (ℚ × ℚ))
    (playingPlayers : ℚ) : ℤ :=
  let cpuPenalty := pw (1.05 : ℚ) (100 * systemLoad) * 10 - 10
  let deficitFramePenalty : ℚ :=
    match frames with
    | none => 0
    | some fr => pw (1.03 : ℚ) (500 * (fr.1 / 3000)) * 600 - 600
  let nullFramePenalty : ℚ :=
    match frames with
    | none => 0
    | some fr => pw (1.03 : ℚ) (500 * (fr.2 / 3000)) * 300 - 300
  Int.floor (cpuPenalty + deficitFramePenalty + 2 * nullFramePenalty + playingPlayers)

/-- Load key as the specification words it: `systemLoad/cores*100`, taken
as 0 for a node that has not yet received CPU stats (whose constructor
snapshot still has zero cores) or whose snapshot lacks the cpu section. -/
def specLoadKey (n : Node) : ℚ :=
  match n.stats.cpu with
  | some c => if c.cores = 0 then 0 else c.systemLoad / c.cores * 100
  | none => 0

/-- A node whose sort key is an actual number: its cpu section, when
present, has received stats with a nonzero core count. -/
def realCpu (n : Node) : Bool :=
  match n.stats.cpu with
  | some c => decide (c.cores ≠ 0)
  | none => true

/-- Concrete player for the C1 counterexample: playing, two queued tracks,
no repeat flags. -/
def c1Player : Player :=
  { Player.init "g1" (some "vc") (some "tc") with
    playing := true, track := some "t1", queue := ["t1", "t2"] }

/-- Concrete TrackEnd event with reason STOPPED for the C1
counterexample. -/
def c1Event : LavalinkOptions :=
  { type := "TrackEndEvent", reason := "STOPPED", code := 0, guildId := "g1" }

/-- Concrete voice-server payload for the C2 counterexample. -/
def c2Server : ServerData := { guild_id := "g2", token := "tok-new" }

/-- Concrete player for the C2 counterexample, holding a previously stored
voice-update state. -/
def c2PlayerV : Player :=
  { Player.init "g2" (some "vc") none with
    voiceUpdateState := some { sessionId := "sid-old"
                               event := { guild_id := "g2", token := "tok-old" } } }

/-- Concrete manager for the C2 counterexample: a session exists for the
guild but neither correlation half has arrived. -/
def c2Manager : Manager :=
  { user := some "bot"
    nodes := []
    players := [("g2", c2PlayerV)]
    voiceServers := []
    voiceStates := [] }

/-- Concrete disconnected node for the C3 witness. -/
def c3Node : Node := Node.init none "h3" none

/-- Connected node with real CPU stats giving sort key 10, for the C4
counterexample. -/
def c4NodeA : Node :=
  { Node.init (some "A") "hostA" none with
    connected := true
    stats :=
      { players := 0, playingPlayers := 0, uptime := 0
        cpu := some { cores := 1, systemLoad := 1 / 10, lavalinkLoad := 0 }
        frameStats := none } }

/-- Connected node that has not yet received CPU stats (constructor
snapshot, zero cores), for the C4 counterexample. -/
def c4NodeB : Node :=
  { Node.init (some "B") "hostB" none with connected := true }

/-- Connected node with real CPU stats giving sort key 5, for the C4
counterexample. -/
def c4NodeC : Node :=
  { Node.init (some "C") "hostC" none with
    connected := true
    stats :=
      { players := 0, playingPlayers := 0, uptime := 0
        cpu := some { cores := 1, systemLoad := 1 / 20, lavalinkLoad := 0 }
        frameStats := none } }

/-- Concrete manager for the C4 counterexample. -/
def c4Manager : Manager :=
  { user := none
    nodes := [c4NodeA, c4NodeB, c4NodeC]
    players := []
    voiceServers := []
    voiceStates := [] }

/-- Concrete manager for the C4 witness: both connected nodes have real
CPU stats. -/
def c4ManagerW : Manager :=
  { user := none
    nodes := [c4NodeA, c4NodeC]
    players := []
    voiceServers := []
    voiceStates := [] }

/-- Concrete player with a three-track queue for the C5 counterexample. -/
def c5Player : Player :=
  { Player.init "g5" none none with queue := ["a", "b", "c"] }

/-- Concrete playing player for the C7 counterexample. -/
def c7Player : Player :=
  { Player.init "g7" none none with playing := true, track := some "x", queue := ["x"] }

/-- Concrete non-playing player for the C7 witness. -/
def c7PlayerNP : Player := Player.init "g7w" none none

/-- Concrete fresh node for the C8 counterexample. -/
def c8Node : Node := Node.init none "h8" none

/-- Freshly constructed player (no `clearEQ` call yet, so `bands` is still
uninitialized) with the playing flag set, for C10. -/
def c10Player : Player :=
  { Player.init "gx" none none with playing := true, track := some "t", queue := ["t"] }

theorem play_empty_eq_replayHead (p : Player) :
    Player.play PlayOptions.empty p = replayHead p := by
  cases h : p.queue with
  | nil => simp [Player.play, replayHead, h]
  | cons t rest => simp [Player.play, replayHead, h, PlayOptions.empty, Option.getD]

/-- C1 counterexample: a TrackEnd with reason STOPPED on a session with
queue length 2 drops the head and re-issues `play` for the new head, but
the handler returns before the `trackEnd` emission, so no `trackEnd`
notification is in the produced actions — the claim asserts one is
emitted. -/
theorem c1_counterexample :
    Player.lavalinkEvent c1Event c1Player =
      Except.ok ({ c1Player with queue := ["t2"], track := some "t2" },
        [Action.send (Cmd.play "g1" "t2" 0 100 false false)]) ∧
    Action.emit Evt.trackEnd ∉ [Action.send (Cmd.play "g1" "t2" 0 100 false false)] := by
  constructor
  · rfl
  · decide

/-- C1 amended: for every inbound TrackEnd lifecycle event the handler's
resulting state and actions match the amended decision table
`trackEndTable` — track-repeat replays for every end reason; on STOPPED
with queue length at least 2 the head is dropped and play re-issued but no
`trackEnd` notification is emitted; `trackEnd` is emitted only on the
fall-through path (reason neither FINISHED-with-short-queue nor
STOPPED). -/
theorem c1_amended (data : LavalinkOptions) (p : Player)
    (h : data.type = "TrackEndEvent") :
    Player.lavalinkEvent data p = Except.ok (trackEndTable data.reason p) := by
  have hne : data.type ≠ "TrackStartEvent" := by rw [h]; decide
  rw [Player.lavalinkEvent, if_neg hne, if_pos h, trackEndTable]
  by_cases htr : p.trackRepeat = true
  · simp [htr, play_empty_eq_replayHead]
  · by_cases hfin : data.reason = "FINISHED"
    · by_cases hlen : p.queue.length ≤ 1
      · by_cases hqr : p.queueRepeat = true
        · simp [htr, hfin, hlen, hqr, play_empty_eq_replayHead, Player.stop]
        · simp [htr, hfin, hlen, hqr, Player.stop]
      · have h2 : 2 ≤ p.queue.length := by omega
        have hsne : data.reason ≠ "STOPPED" := by rw [hfin]; decide
        simp [htr, hfin, hlen, h2, hsne, play_empty_eq_replayHead]
    · by_cases hstop : data.reason = "STOPPED"
      · by_cases h2 : 2 ≤ p.queue.length
        · simp [htr, hfin, hstop, h2, play_empty_eq_replayHead]
        · have hlen : p.queue.length ≤ 1 := by omega
          simp [htr, hfin, hstop, h2, hlen, Player.stop]
      · by_cases h2 : 2 ≤ p.queue.length
        · simp [htr, hfin, hstop, h2, play_empty_eq_replayHead]
        · have hlen : p.queue.length ≤ 1 := by omega
          simp [htr, hfin, hstop, h2, hlen]

/-- C1 witness: the amended decision table applied at a concrete FINISHED
event with queue length 1 and no repeats — queue cleared, `queueEnd`
emitted, `stop` sent, flags cleared. -/
theorem c1_witness :
    Player.lavalinkEvent { type := "TrackEndEvent", reason := "FINISHED", code := 0, guildId := "g1" }
      { c1Player with queue := ["t1"] } =
      Except.ok ({ c1Player with queue := [], playing := false, paused := false },
        [Action.emit Evt.queueEnd, Action.send (Cmd.stop "g1")]) := by
  rw [c1_amended _ _ rfl]
  rfl

/-- C5 counterexample: `stop(2)` on a queue of length 3 removes only one
leading entry (`splice(0, amount - 1)`), leaving `["b", "c"]`, while the
claim ("exactly skipCount leading entries are removed") would leave
`["c"]`. -/
theorem c5_counterexample :
    Player.stop (some 2) c5Player =
      Except.ok ({ c5Player with queue := ["b", "c"] }, [Action.send (Cmd.stop "g5")]) ∧
    ["b", "c"] ≠ ["c"] := by
  exact ⟨rfl, by decide⟩

/-- C5 amended: `stop(skipCount)` with `skipCount > 1` throws a RangeError
when the count exceeds the queue length, and otherwise removes exactly
`skipCount - 1` leading entries before sending `stop`; with the count
absent or at most 1 the queue is untouched and `stop` is sent. -/
theorem c5_amended (p : Player) (a : ℤ) :
    (1 < a → (p.queue.length : ℤ) < a →
      Player.stop (some a) p = Except.error Err.rangeError) ∧
    (1 < a → a ≤ (p.queue.length : ℤ) →
      Player.stop (some a) p =
        Except.ok ({ p with queue := p.queue.drop (a - 1).toNat },
          [Action.send (Cmd.stop p.guild)])) ∧
    (a ≤ 1 →
      Player.stop (some a) p = Except.ok (p, [Action.send (Cmd.stop p.guild)])) ∧
    Player.stop none p = Except.ok (p, [Action.send (Cmd.stop p.guild)]) := by
  refine ⟨fun h1 h2 => ?_, fun h1 h2 => ?_, fun h1 => ?_, rfl⟩
  · simp [Player.stop, h1, h2]
  · have hnlt : ¬ ((p.queue.length : ℤ) < a) := by omega
    have hnlt1 : ¬ (a < 1) := by omega
    simp [Player.stop, h1, hnlt, hnlt1]
  · have hn : ¬ (1 < a) := by omega
    simp [Player.stop, hn]

/-- C5 witness: the amended statement evaluated at `stop(3)` on the
three-track queue — exactly two leading entries are removed. -/
theorem c5_witness :
    Player.stop (some 3) c5Player =
      Except.ok ({ c5Player with queue := ["c"] }, [Action.send (Cmd.stop "g5")]) := by
  have h := (c5_amended c5Player 3).2.1 (by decide) (by decide)
  simpa using h

/-- C6: `calcPenalties` computes exactly the specification's formula
`floor(cpuPenalty + deficitFramePenalty + 2*nullFramePenalty +
playingPlayers)` (the code doubles the null-frame penalty in place), the
frame-based terms contributing zero when frame statistics are absent from
the snapshot; being a plain function of the snapshot and of the
exponentiation function, it is deterministic — identical inputs yield
identical output. -/
theorem c6_theorem (pw : ℚ → ℚ → ℚ) (st : NodeStats) (c : CpuStats)
    (h : st.cpu = some c) :
    Node.calcPenalties pw st =
      some (penaltySpec pw c.systemLoad
        (st.frameStats.map (fun f => (f.deficit, f.nulled))) st.playingPlayers) := by
  cases hf : st.frameStats with
  | none =>
    simp only [Node.calcPenalties, penaltySpec, h, hf, Option.map_none]
    norm_num
  | some f =>
    simp only [Node.calcPenalties, penaltySpec, h, hf, Option.map_some']
    congr 1
    congr 1
    ring

/-- C6 witness: the formula evaluated at a concrete snapshot with the
rational power function `fun b e => b * e` standing in for `**`. -/
theorem c6_witness :
    Node.calcPenalties (fun b e => b * e)
      { players := 1, playingPlayers := 3, uptime := 0
        cpu := some { cores := 4, systemLoad := 1 / 2, lavalinkLoad := 0 }
        frameStats := some { sent := 9, nulled := 30, deficit := 60 } } =
      some (penaltySpec (fun b e => b * e) (1 / 2) (some (60, 30)) 3) := by
  exact c6_theorem (fun b e => b * e) _
    { cores := 4, systemLoad := 1 / 2, lavalinkLoad := 0 } rfl

/-- C7 counterexample: on a session whose playing flag is true, the
equalizer setter called with an empty band list throws a TypeError and
sends no command — contradicting the claim that when playing every filter
setter sends its command. -/
theorem c7_counterexample :
    c7Player.playing = true ∧
    Player.setEQ [] c7Player = Except.error Err.typeError := by
  exact ⟨rfl, rfl⟩

/-- C7 amended: every filter setter raises the NotPlaying error if and
only if the session's playing flag is false, and in that case no command
is sent (the call returns the bare error); when playing, each of the nine
non-equalizer setters sends its single `filters`-typed command with the
specific sub-object (`cleanFilters` with no sub-object), while the
equalizer setter additionally validates its band descriptors and the
initialization of the `bands` array and therefore may fail with a
TypeError — but never with NotPlaying — when playing. -/
theorem c7_amended (p : Player) (q1 q2 q3 q4 q5 q6 q7 q8 : Option ℚ)
    (r1 r2 r3 r4 : ℚ) (bs : List EqBand) :
    (p.playing = false →
      Player.setKaraoke q1 q2 q3 q4 p = Except.error Err.notPlaying ∧
      Player.setTimeScale r1 r2 r3 p = Except.error Err.notPlaying ∧
      Player.setTremolo q1 q2 p = Except.error Err.notPlaying ∧
      Player.setVibrato q1 q2 p = Except.error Err.notPlaying ∧
      Player.setRotation r4 p = Except.error Err.notPlaying ∧
      Player.setDistortion q1 q2 q3 q4 q5 q6 q7 q8 p = Except.error Err.notPlaying ∧
      Player.setChannelMix q1 q2 q3 q4 p = Except.error Err.notPlaying ∧
      Player.setLowPass r4 p = Except.error Err.notPlaying ∧
      Player.cleanFilters p = Except.error Err.notPlaying ∧
      Player.setEQ bs p = Except.error Err.notPlaying) ∧
    (p.playing = true →
      Player.setKaraoke q1 q2 q3 q4 p =
        Except.ok (p, [Action.send (Cmd.filters p.guild (FilterSub.karaoke
          (jsorOpt q1 1) (jsorOpt q2 1) (jsorOpt q3 220) (jsorOpt q4 100)))]) ∧
      Player.setTimeScale r1 r2 r3 p =
        Except.ok (p, [Action.send (Cmd.filters p.guild (FilterSub.timescale
          (jsor r1 1) (jsor r2 1) (jsor r3 1)))]) ∧
      Player.setTremolo q1 q2 p =
        Except.ok (p, [Action.send (Cmd.filters p.guild (FilterSub.tremolo
          (jsorOpt q1 2) (jsorOpt q2 (1 / 2))))]) ∧
      Player.setVibrato q1 q2 p =
        Except.ok (p, [Action.send (Cmd.filters p.guild (FilterSub.vibrato
          (jsorOpt q1 2) (jsorOpt q2 (1 / 2))))]) ∧
      Player.setRotation r4 p =
        Except.ok (p, [Action.send (Cmd.filters p.guild (FilterSub.rotation
          (jsor r4 0)))]) ∧
      Player.setDistortion q1 q2 q3 q4 q5 q6 q7 q8 p =
        Except.ok (p, [Action.send (Cmd.filters p.guild (FilterSub.distortion
          (jsorOpt q1 0) (jsorOpt q2 1) (jsorOpt q3 0) (jsorOpt q4 1)
          (jsorOpt q5 0) (jsorOpt q6 1) (jsorOpt q7 0) (jsorOpt q8 1)))]) ∧
      Player.setChannelMix q1 q2 q3 q4 p =
        Except.ok (p, [Action.send (Cmd.filters p.guild (FilterSub.channelMix
          (jsorOpt q1 1) (jsorOpt q2 0) (jsorOpt q4 0) (jsorOpt q3 1)))]) ∧
      Player.setLowPass r4 p =
        Except.ok (p, [Action.send (Cmd.filters p.guild (FilterSub.lowPass
          (jsor r4 20)))]) ∧
      Player.cleanFilters p =
        Except.ok (p, [Action.send (Cmd.filters p.guild FilterSub.noSub)]) ∧
      Player.setEQ bs p ≠ Except.error Err.notPlaying) := by
  constructor
  · intro h
    simp [Player.setKaraoke, Player.setTimeScale, Player.setTremolo, Player.setVibrato,
      Player.setRotation, Player.setDistortion, Player.setChannelMix, Player.setLowPass,
      Player.cleanFilters, Player.setEQ, h]
  · intro h
    refine ⟨?_, ?_, ?_, ?_, ?_, ?_, ?_, ?_, ?_, ?_⟩ <;>
      simp [Player.setKaraoke, Player.setTimeScale, Player.setTremolo, Player.setVibrato,
        Player.setRotation, Player.setDistortion, Player.setChannelMix, Player.setLowPass,
        Player.cleanFilters, Player.setEQ, h]
    · by_cases hb : bs = []
      · simp [hb]
      · rw [if_neg hb]
        cases p.bands <;> simp

/-- C7 witness: the amended statement evaluated on both sides — a tremolo
call on a non-playing session fails with NotPlaying, and the same call on
a playing session sends its filters command. -/
theorem c7_witness :
    Player.setTremolo none none c7PlayerNP = Except.error Err.notPlaying ∧
    Player.setTremolo none none c7Player =
      Except.ok (c7Player, [Action.send (Cmd.filters "g7" (FilterSub.tremolo 2 (1 / 2)))]) := by
  constructor
  · exact ((c7_amended c7PlayerNP none none none none none none none none 0 0 0 0 []).1
      rfl).2.2.1
  · have h := ((c7_amended c7Player none none none none none none none none 0 0 0 0 []).2
      rfl).2.2.1
    simpa [jsorOpt] using h

/-- C10: on a freshly constructed playing session whose `bands` array has
never been initialized by `clearEQ`, `setEQ` always throws — a TypeError,
from the unguarded write into the undefined array, whenever the supplied
band list is nonempty (and a band-validation TypeError when it is empty);
further, any successful `setEQ` requires an initialized `bands` array, and
`clearEQ` on a playing session is exactly what initializes it to sixteen
zero gains. -/
theorem c10_theorem (bs : List EqBand) (p : Player) (res : Player × List Action) :
    Player.setEQ bs c10Player = Except.error Err.typeError ∧
    (Player.setEQ bs p = Except.ok res → p.bands.isSome = true) ∧
    (p.playing = true →
      Player.clearEQ p =
        Except.ok ({ p with bands := some (List.replicate 16 (0 : ℚ)) },
          [Action.send (Cmd.equalizer p.guild (List.replicate 16 (0 : ℚ)).enum)])) := by
  refine ⟨?_, ?_, ?_⟩
  · by_cases hb : bs.length = 0
    · simp [Player.setEQ, c10Player, Player.init, hb]
    · simp [Player.setEQ, c10Player, Player.init, hb]
  · intro h
    by_cases hp : p.playing = false
    · simp [Player.setEQ, hp] at h
    · by_cases hb : bs.length = 0
      · simp [Player.setEQ, hp, hb] at h
      · cases hbd : p.bands with
        | none => simp [Player.setEQ, hp, hb, hbd] at h
        | some arr => simp
  · intro h
    simp [Player.clearEQ, h]

/-- C10 witness: the statement evaluated at a concrete valid band
descriptor on the fresh playing session, and `clearEQ` initializing the
sixteen-band array on that same session. -/
theorem c10_witness :
    Player.setEQ [{ band := 0, gain := 1 }] c10Player = Except.error Err.typeError ∧
    Player.clearEQ c10Player =
      Except.ok ({ c10Player with bands := some (List.replicate 16 (0 : ℚ)) },
        [Action.send (Cmd.equalizer "gx" (List.replicate 16 (0 : ℚ)).enum)]) := by
  have h := c10_theorem [{ band := 0, gain := 1 }] c10Player (c10Player, [])
  exact ⟨h.1, h.2.2 rfl⟩

/-- C8 counterexample: after the close handler with the non-normal code
1006 and the error handler both fire on a fresh node, two reconnect timers
are pending — not at most one, as the claim's idempotence would give. -/
theorem c8_counterexample :
    ¬ ((Node.error (Node.close 1006 c8Node).1).1.pendingTimers.length ≤ 1) := by
  decide

/-- C8 amended: reconnect scheduling is not idempotent — when the close
handler (with a non-normal code) and the error handler both fire, each
schedules a fresh timer, so two new reconnect timers are pending and only
the handle of the most recent one is retained. -/
theorem c8_amended (s : Node) (code : ℤ) (h : code ≠ 1000) :
    (Node.error (Node.close code s).1).1.pendingTimers =
      s.pendingTimers ++ [s.nextTimer, s.nextTimer + 1] ∧
    (Node.error (Node.close code s).1).1.reconn = some (s.nextTimer + 1) := by
  simp [Node.close, Node.error, Node.reconnect, h]

/-- C8 witness: the amended statement on the fresh node with close code
1006. -/
theorem c8_witness :
    (Node.error (Node.close 1006 c8Node).1).1.pendingTimers = [0, 1] ∧
    (Node.error (Node.close 1006 c8Node).1).1.reconn = some 1 := by
  have h := c8_amended c8Node 1006 (by decide)
  simpa [c8Node, Node.init] using h

theorem alookup_adel {α : Type} (k : String) (l : List (String × α)) :
    alookup k (l.filter (fun e => decide (e.1 ≠ k))) = none := by
  induction l with
  | nil => rfl
  | cons e rest ih =>
    obtain ⟨k2, v⟩ := e
    by_cases h : k2 = k
    · rw [List.filter_cons, if_neg (by simp [h])]
      exact ih
    · rw [List.filter_cons, if_pos (by simp [h])]
      simp only [alookup]
      rw [if_neg (fun hk => h hk.symm)]
      exact ih

theorem adel_idem {α : Type} (k : String) (l : List (String × α)) :
    (l.filter (fun e => decide (e.1 ≠ k))).filter (fun e => decide (e.1 ≠ k)) =
      l.filter (fun e => decide (e.1 ≠ k)) := by
  rw [List.filter_filter]
  simp

theorem disconnect_guild (p : Player) : (Player.disconnect p).1.guild = p.guild := by
  cases hv : p.voiceChannel <;>
    by_cases h : p.paused = true <;>
    by_cases hq : p.queue = [] <;>
    simp [Player.disconnect, Player.pause, hv, h, hq]

/-- C9: destroying a session twice — the model of `destroy()` is total (no
statement in its path can throw: `disconnect` is a guarded no-op the
second time, the node send and the emission are fire-and-forget, and
`Map.delete` of an absent key is a no-op), the session's guild key is
absent from the registry after the first call, and the second call leaves
the registry's player map exactly as the first call left it. -/
theorem c9_theorem (p : Player) (players : List (String × Player)) :
    alookup p.guild (Player.destroy p players).2.1 = none ∧
    (Player.destroy (Player.destroy p players).1 (Player.destroy p players).2.1).2.1 =
      (Player.destroy p players).2.1 := by
  constructor
  · exact alookup_adel p.guild players
  · show ((Player.destroy p players).2.1).filter _ = (Player.destroy p players).2.1
    have hg : (Player.destroy p players).1.guild = p.guild := by
      simpa [Player.destroy] using disconnect_guild p
    rw [hg]
    exact adel_idem p.guild players

theorem sendAll_cons (c : Cmd) (rest : List Cmd) (s : Node) :
    Node.sendAll (c :: rest) s =
      ((Node.sendAll rest (Node.send c s).1).1,
       (Node.send c s).2.1 ++ (Node.sendAll rest (Node.send c s).1).2.1,
       (Node.send c s).2.2 :: (Node.sendAll rest (Node.send c s).1).2.2) := rfl

/-- Backlog contents and send results after a burst of sends on a
disconnected node: everything is appended in FIFO order, nothing is
transmitted, and each call returns the new backlog length. -/
theorem sendAll_disconnected (ps : List Cmd) (s : Node) (h : s.connected = false) :
    (Node.sendAll ps s).1.packetQueue = s.packetQueue ++ ps ∧
    (Node.sendAll ps s).1.connected = false ∧
    (Node.sendAll ps s).1.resumeKey = s.resumeKey ∧
    (Node.sendAll ps s).2.1 = [] ∧
    (Node.sendAll ps s).2.2 =
      (List.range ps.length).map (fun i => SendRes.queued (s.packetQueue.length + i + 1)) := by
  induction ps generalizing s with
  | nil => simp [Node.sendAll, h]
  | cons c rest ih =>
    have hstep : Node.send c s =
        ({ s with packetQueue := s.packetQueue ++ [c] }, [],
          SendRes.queued (s.packetQueue.length + 1)) := by
      simp [Node.send, h]
    obtain ⟨h1, h2, h3, h4, h5⟩ := ih { s with packetQueue := s.packetQueue ++ [c] } h
    refine ⟨?_, ?_, ?_, ?_, ?_⟩
    · rw [sendAll_cons, hstep]
      simpa using h1
    · rw [sendAll_cons, hstep]
      exact h2
    · rw [sendAll_cons, hstep]
      exact h3
    · rw [sendAll_cons, hstep]
      simpa using h4
    · rw [sendAll_cons, hstep]
      show SendRes.queued (s.packetQueue.length + 1) :: _ = _
      rw [h5]
      simp only [List.length_cons, List.length_append, List.length_singleton]
      rw [List.range_succ_eq_map]
      simp only [List.map_cons, List.map_map, Function.comp]
      congr 1
      apply List.map_congr_left
      intro i _
      simp only [Function.comp_apply, List.length_nil]
      congr 1
      omega

/-- C3 (code bug): payloads sent while a node is disconnected are all
appended to the backlog in FIFO order with `send` returning the new
backlog length, but when the connection transitions to connected the open
handler transmits nothing and leaves the backlog in place — no code path
ever reads `#packetQueue`, so the claimed (and clearly intended) FIFO
flush never happens. -/
theorem c3_theorem (ps : List Cmd) (s : Node)
    (h : s.connected = false) (hk : s.resumeKey = none) :
    (Node.sendAll ps s).1.packetQueue = s.packetQueue ++ ps ∧
    (Node.sendAll ps s).2.1 = [] ∧
    (Node.sendAll ps s).2.2 =
      (List.range ps.length).map (fun i => SendRes.queued (s.packetQueue.length + i + 1)) ∧
    (Node.open (Node.sendAll ps s).1).2 = [Action.emit Evt.nodeConnect] ∧
    (Node.open (Node.sendAll ps s).1).1.packetQueue = s.packetQueue ++ ps ∧
    (Node.open (Node.sendAll ps s).1).1.connected = true := by
  have hs := sendAll_disconnected ps s h
  have hk2 : (Node.sendAll ps s).1.resumeKey = none := hs.2.2.1.trans hk
  refine ⟨hs.1, hs.2.2.2.1, hs.2.2.2.2, ?_, ?_, ?_⟩ <;>
    cases hr : (Node.sendAll ps s).1.reconn <;>
    simp [Node.open, hr, hk2, hs.1]

/-- C3 witness: two payloads queued on a fresh disconnected node (send
returning lengths 1 and 2), then the open handler fires: nothing is
transmitted and both payloads are still in the backlog. -/
theorem c3_witness :
    (Node.sendAll [Cmd.stop "a", Cmd.stop "b"] c3Node).2.2 =
      [SendRes.queued 1, SendRes.queued 2] ∧
    (Node.open (Node.sendAll [Cmd.stop "a", Cmd.stop "b"] c3Node).1).2 =
      [Action.emit Evt.nodeConnect] ∧
    (Node.open (Node.sendAll [Cmd.stop "a", Cmd.stop "b"] c3Node).1).1.packetQueue =
      [Cmd.stop "a", Cmd.stop "b"] := by
  have h := c3_theorem [Cmd.stop "a", Cmd.stop "b"] c3Node rfl rfl
  exact ⟨by simpa [c3Node, Node.init] using h.2.2.1,
    h.2.2.2.1, by simpa [c3Node, Node.init] using h.2.2.2.2.1⟩

/-- C2 counterexample: on a guild with a registered session but neither
correlation half stored, the arrival of just the voice-server half makes
the correlation attempt invoke the session's voice-link-establish
operation (a `voiceUpdate` command is sent, using the session id from the
session's previously stored `voiceUpdateState`) and return true — the
voice-state half is still absent, so establishment fired with only one
half present. -/
theorem c2_counterexample :
    c2Manager.voiceStates = [] ∧
    Manager.voiceServersUpdate c2Server c2Manager =
      Except.ok ({ c2Manager with
          voiceServers := [("g2", c2Server)]
          players := [("g2", { c2PlayerV with
            voiceUpdateState := some { sessionId := "sid-old", event := c2Server } })] },
        [Action.send (Cmd.voiceUpdate "g2" "sid-old" c2Server)], true) := by
  exact ⟨rfl, rfl⟩

/-- C2 amended: for every manager state and guild, the correlation attempt
invokes the session's voice-link-establish operation (sending exactly one
`voiceUpdate` command and returning true) if and only if the voice-server
half is stored AND a session exists for the guild: with the state half
also present the stored session id is used, without it the session's
previously stored `voiceUpdateState` supplies the id (a TypeError crash
when that is absent too); when the server half or the session is missing
the attempt performs nothing and returns false. -/
theorem c2_amended (m : Manager) (g : String) :
    (alookup g m.voiceServers = none →
      Manager.connectionProcess m g = Except.ok (m, [], false)) ∧
    (∀ server, alookup g m.voiceServers = some server →
      alookup g m.players = none →
      Manager.connectionProcess m g = Except.ok (m, [], false)) ∧
    (∀ server p st, alookup g m.voiceServers = some server →
      alookup g m.players = some p →
      alookup g m.voiceStates = some st →
      Manager.connectionProcess m g =
        Except.ok ({ m with players := aset g { p with voiceUpdateState := some ⟨st.session_id, server⟩ } m.players },
          [Action.send (Cmd.voiceUpdate p.guild st.session_id server)], true)) ∧
    (∀ server p v, alookup g m.voiceServers = some server →
      alookup g m.players = some p →
      alookup g m.voiceStates = none →
      p.voiceUpdateState = some v →
      Manager.connectionProcess m g =
        Except.ok ({ m with players := aset g { p with voiceUpdateState := some ⟨v.sessionId, server⟩ } m.players },
          [Action.send (Cmd.voiceUpdate p.guild v.sessionId server)], true)) ∧
    (∀ server p, alookup g m.voiceServers = some server →
      alookup g m.players = some p →
      alookup g m.voiceStates = none →
      p.voiceUpdateState = none →
      Manager.connectionProcess m g = Except.error Err.typeError) := by
  refine ⟨?_, ?_, ?_, ?_, ?_⟩
  · intro h
    simp [Manager.connectionProcess, h]
  · intro server hs hp
    simp [Manager.connectionProcess, hs, hp]
  · intro server p st hs hp hst
    simp [Manager.connectionProcess, hs, hp, hst, Player.connect]
  · intro server p v hs hp hst hv
    simp [Manager.connectionProcess, hs, hp, hst, hv, Player.connect]
  · intro server p hs hp hst hv
    simp [Manager.connectionProcess, hs, hp, hst, hv]

/-- C2 witness: the amended characterization evaluated with both halves
present — the success case of the decision uses the state half's session
id. -/
theorem c2_witness :
    Manager.connectionProcess
      { c2Manager with
        voiceServers := [("g2", c2Server)]
        voiceStates := [("g2", { user_id := "bot", channel_id := some "vc"
                                 guild_id := "g2", session_id := "sid-new" })] } "g2" =
      Except.ok ({ c2Manager with
          voiceServers := [("g2", c2Server)]
          voiceStates := [("g2", { user_id := "bot", channel_id := some "vc"
                                   guild_id := "g2", session_id := "sid-new" })]
          players := [("g2", { c2PlayerV with
            voiceUpdateState := some { sessionId := "sid-new", event := c2Server } })] },
        [Action.send (Cmd.voiceUpdate "g2" "sid-new" c2Server)], true) := by
  have h := (c2_amended
    { c2Manager with
      voiceServers := [("g2", c2Server)]
      voiceStates := [("g2", { user_id := "bot", channel_id := some "vc"
                               guild_id := "g2", session_id := "sid-new" })] } "g2").2.2.1
    c2Server c2PlayerV
    { user_id := "bot", channel_id := some "vc", guild_id := "g2", session_id := "sid-new" }
    rfl rfl rfl
  simpa using h

theorem orderedInsert_perm {α : Type} (r : α → α → Bool) (a : α) (l : List α) :
    (orderedInsert r a l).Perm (a :: l) := by
  induction l with
  | nil => exact List.Perm.refl _
  | cons b t ih =>
    by_cases h : r a b = true
    · rw [orderedInsert, if_pos h]
    · rw [orderedInsert, if_neg h]
      exact (ih.cons b).trans (List.Perm.swap a b t)

theorem insertionSortL_perm {α : Type} (r : α → α → Bool) (l : List α) :
    (insertionSortL r l).Perm l := by
  induction l with
  | nil => exact List.Perm.refl _
  | cons a t ih =>
    rw [insertionSortL]
    exact (orderedInsert_perm r a (insertionSortL r t)).trans (ih.cons a)

theorem orderedInsert_sorted {α : Type} (key : α → ℚ) (r : α → α → Bool) (a : α) :
    ∀ l : List α,
      (∀ x ∈ a :: l, ∀ y ∈ a :: l, (r x y = true ↔ key x ≤ key y)) →
      l.Pairwise (fun x y => key x ≤ key y) →
      (orderedInsert r a l).Pairwise (fun x y => key x ≤ key y) := by
  intro l
  induction l with
  | nil =>
    intro _ _
    simp [orderedInsert]
  | cons b t ih =>
    intro hr hl
    have hmem_ab : a ∈ a :: b :: t := List.mem_cons_self a _
    have hmem_bb : b ∈ a :: b :: t := List.mem_cons_of_mem a (List.mem_cons_self b t)
    by_cases h : r a b = true
    · rw [orderedInsert, if_pos h]
      have hab : key a ≤ key b := (hr a hmem_ab b hmem_bb).1 h
      refine List.pairwise_cons.mpr ⟨?_, hl⟩
      intro y hy
      rcases List.mem_cons.mp hy with rfl | hy2
      · exact hab
      · exact le_trans hab (List.rel_of_pairwise_cons hl hy2)
    · rw [orderedInsert, if_neg h]
      have hba : key b ≤ key a := by
        have hiff := hr a hmem_ab b hmem_bb
        have hnle : ¬ key a ≤ key b := fun hle => h (hiff.2 hle)
        exact (not_le.mp hnle).le
      have hl2 := List.pairwise_cons.mp hl
      have hweak : ∀ x ∈ a :: t, x ∈ a :: b :: t := by
        intro x hx
        rcases List.mem_cons.mp hx with rfl | hx2
        · exact hmem_ab
        · exact List.mem_cons_of_mem a (List.mem_cons_of_mem b hx2)
      have hrec := ih (fun x hx y hy => hr x (hweak x hx) y (hweak y hy)) hl2.2
      refine List.pairwise_cons.mpr ⟨?_, hrec⟩
      intro y hy
      have hy2 : y = a ∨ y ∈ t := by
        have := (orderedInsert_perm r a t).mem_iff.mp hy
        simpa using this
      rcases hy2 with rfl | hy3
      · exact hba
      · exact hl2.1 y hy3

theorem insertionSortL_sorted {α : Type} (key : α → ℚ) (r : α → α → Bool) :
    ∀ l : List α,
      (∀ x ∈ l, ∀ y ∈ l, (r x y = true ↔ key x ≤ key y)) →
      (insertionSortL r l).Pairwise (fun x y => key x ≤ key y) := by
  intro l
  induction l with
  | nil =>
    intro _
    simp [insertionSortL]
  | cons a t ih =>
    intro hr
    rw [insertionSortL]
    have hmemt : ∀ x ∈ insertionSortL r t, x ∈ a :: t := by
      intro x hx
      exact List.mem_cons_of_mem a ((insertionSortL_perm r t).mem_iff.mp hx)
    have hmem : ∀ x ∈ a :: insertionSortL r t, x ∈ a :: t := by
      intro x hx
      rcases List.mem_cons.mp hx with rfl | hx2
      · exact List.mem_cons_self _ _
      · exact hmemt x hx2
    exact orderedInsert_sorted key r a (insertionSortL r t)
      (fun x hx y hy => hr x (hmem x hx) y (hmem y hy))
      (ih (fun x hx y hy => hr x (List.mem_cons_of_mem a hx) y (List.mem_cons_of_mem a hy)))

theorem filter_orderedInsert {α : Type} (key : α → ℚ) (r : α → α → Bool) (k : ℚ) (a : α) :
    ∀ l : List α,
      (∀ x ∈ a :: l, ∀ y ∈ a :: l, (r x y = true ↔ key x ≤ key y)) →
      (orderedInsert r a l).filter (fun n => decide (key n = k)) =
        (if key a = k then a :: l.filter (fun n => decide (key n = k))
         else l.filter (fun n => decide (key n = k))) := by
  intro l
  induction l with
  | nil =>
    intro _
    by_cases h : key a = k <;> simp [orderedInsert, h]
  | cons b t ih =>
    intro hr
    have hmem_ab : a ∈ a :: b :: t := List.mem_cons_self a _
    have hmem_bb : b ∈ a :: b :: t := List.mem_cons_of_mem a (List.mem_cons_self b t)
    by_cases h : r a b = true
    · rw [orderedInsert, if_pos h]
      by_cases hk : key a = k <;> simp [hk, List.filter_cons]
    · rw [orderedInsert, if_neg h]
      have hba : key b < key a := by
        have hiff := hr a hmem_ab b hmem_bb
        exact not_le.mp (fun hle => h (hiff.2 hle))
      have hweak : ∀ x ∈ a :: t, x ∈ a :: b :: t := by
        intro x hx
        rcases List.mem_cons.mp hx with rfl | hx2
        · exact hmem_ab
        · exact List.mem_cons_of_mem a (List.mem_cons_of_mem b hx2)
      have ih2 := ih (fun x hx y hy => hr x (hweak x hx) y (hweak y hy))
      by_cases hk : key a = k
      · have hbk : ¬ key b = k := by
          intro hb
          rw [hb, ← hk] at hba
          exact lt_irrefl _ hba
        simp [List.filter_cons, ih2, hk, hbk]
      · simp [List.filter_cons, ih2, hk]

theorem filter_insertionSortL {α : Type} (key : α → ℚ) (r : α → α → Bool) (k : ℚ) :
    ∀ l : List α,
      (∀ x ∈ l, ∀ y ∈ l, (r x y = true ↔ key x ≤ key y)) →
      (insertionSortL r l).filter (fun n => decide (key n = k)) =
        l.filter (fun n => decide (key n = k)) := by
  intro l
  induction l with
  | nil =>
    intro _
    rfl
  | cons a t ih =>
    intro hr
    rw [insertionSortL]
    have hmem : ∀ x ∈ a :: insertionSortL r t, x ∈ a :: t := by
      intro x hx
      rcases List.mem_cons.mp hx with rfl | hx2
      · exact List.mem_cons_self _ _
      · exact List.mem_cons_of_mem a ((insertionSortL_perm r t).mem_iff.mp hx2)
    rw [filter_orderedInsert key r k a (insertionSortL r t)
      (fun x hx y hy => hr x (hmem x hx) y (hmem y hy))]
    rw [ih (fun x hx y hy => hr x (List.mem_cons_of_mem a hx) y (List.mem_cons_of_mem a hy))]
    by_cases hk : key a = k
    · rw [if_pos hk, List.filter_cons, if_pos (by simpa using hk)]
    · rw [if_neg hk, List.filter_cons, if_neg (by simpa using hk)]

theorem realCpu_key (n : Node) (h : realCpu n = true) :
    nodeLoad n = JSNum.num (specLoadKey n) := by
  cases hc : n.stats.cpu with
  | none => simp [nodeLoad, specLoadKey, hc]
  | some c =>
    have hz : ¬ c.cores = 0 := by simpa [realCpu, hc] using h
    simp [nodeLoad, specLoadKey, hc, jsDivQ, jsMul100, hz]

theorem jsCmpLe_real (a b : Node) (ha : nodeLoad a = JSNum.num (specLoadKey a))
    (hb : nodeLoad b = JSNum.num (specLoadKey b)) :
    (jsCmpLe (nodeLoad a) (nodeLoad b) = true ↔ specLoadKey a ≤ specLoadKey b) := by
  rw [ha, hb]
  simp [jsCmpLe]

/-- C4 counterexample: with three connected nodes — loads 10, NaN (a node
that has not yet received CPU stats: its constructor snapshot divides 0
systemLoad by 0 cores), and 5 — `leastUsedNodes` returns them in the
original order [10, NaN, 5], because a NaN comparator value is coerced to
"equal"; under the claim's reading (key taken as 0 for the fresh node) the
keys are [10, 0, 5], which is not non-decreasing. -/
theorem c4_counterexample :
    Manager.leastUsedNodes c4Manager = [c4NodeA, c4NodeB, c4NodeC] ∧
    nodeLoad c4NodeB = JSNum.nan ∧
    ¬ (Manager.leastUsedNodes c4Manager).Pairwise
        (fun a b => specLoadKey a ≤ specLoadKey b) := by
  have hA : nodeLoad c4NodeA = JSNum.num 10 := by
    norm_num [nodeLoad, c4NodeA, Node.init, jsDivQ, jsMul100]
  have hB : nodeLoad c4NodeB = JSNum.nan := by
    simp [nodeLoad, c4NodeB, Node.init, jsDivQ, jsMul100]
  have hC : nodeLoad c4NodeC = JSNum.num 5 := by
    norm_num [nodeLoad, c4NodeC, Node.init, jsDivQ, jsMul100]
  have hAc : c4NodeA.connected = true := rfl
  have hBc : c4NodeB.connected = true := rfl
  have hCc : c4NodeC.connected = true := rfl
  have hres : Manager.leastUsedNodes c4Manager = [c4NodeA, c4NodeB, c4NodeC] := by
    simp [Manager.leastUsedNodes, c4Manager, insertionSortL, orderedInsert,
      hA, hB, hC, hAc, hBc, hCc, jsCmpLe]
  refine ⟨hres, hB, ?_⟩
  rw [hres]
  intro hp
  have h1 : specLoadKey c4NodeA ≤ specLoadKey c4NodeC :=
    (List.pairwise_cons.mp hp).1 c4NodeC
      (List.mem_cons_of_mem _ (List.mem_cons_self _ _))
  have hA2 : specLoadKey c4NodeA = 10 := by
    norm_num [specLoadKey, c4NodeA, Node.init]
  have hC2 : specLoadKey c4NodeC = 5 := by
    norm_num [specLoadKey, c4NodeC, Node.init]
  rw [hA2, hC2] at h1
  norm_num at h1

/-- C4 amended: whenever every connected node has received CPU stats with
a nonzero core count (so every sort key is an actual number),
`leastUsedNodes` returns exactly the connected nodes — a permutation of
the connected filter of the registry, recomputed from the current registry
on every call — sorted non-decreasing by `systemLoad/cores*100`, with ties
left in original registration order (stable sort: the sublist at any given
key value is preserved).  A node that has not yet received CPU stats
carries a NaN key (0/0), not 0, and is simply never moved by the
comparator. -/
theorem c4_amended (m : Manager)
    (h : ∀ n ∈ m.nodes, n.connected = true → realCpu n = true) :
    (Manager.leastUsedNodes m).Perm (m.nodes.filter (fun n => n.connected)) ∧
    (Manager.leastUsedNodes m).Pairwise (fun a b => specLoadKey a ≤ specLoadKey b) ∧
    ∀ k : ℚ, (Manager.leastUsedNodes m).filter (fun n => decide (specLoadKey n = k)) =
      (m.nodes.filter (fun n => n.connected)).filter (fun n => decide (specLoadKey n = k)) := by
  have hfl : ∀ x ∈ m.nodes.filter (fun n => n.connected), realCpu x = true := by
    intro x hx
    have h2 := List.mem_filter.mp hx
    exact h x h2.1 h2.2
  have hr : ∀ x ∈ m.nodes.filter (fun n => n.connected),
      ∀ y ∈ m.nodes.filter (fun n => n.connected),
      (jsCmpLe (nodeLoad x) (nodeLoad y) = true ↔ specLoadKey x ≤ specLoadKey y) := by
    intro x hx y hy
    exact jsCmpLe_real x y (realCpu_key x (hfl x hx)) (realCpu_key y (hfl y hy))
  refine ⟨?_, ?_, ?_⟩
  · exact insertionSortL_perm _ _
  · exact insertionSortL_sorted specLoadKey _ _ hr
  · intro k
    exact filter_insertionSortL specLoadKey _ k _ hr

/-- C4 witness: the amended statement on a registry of two connected
nodes with real CPU stats — the result is the permutation [load 5,
load 10], sorted non-decreasing. -/
theorem c4_witness :
    (Manager.leastUsedNodes c4ManagerW).Perm
      (c4ManagerW.nodes.filter (fun n => n.connected)) ∧
    (Manager.leastUsedNodes c4ManagerW).Pairwise
      (fun a b => specLoadKey a ≤ specLoadKey b) := by
  have hreal : ∀ n ∈ c4ManagerW.nodes, n.connected = true → realCpu n = true := by
    intro n hn _
    have hn2 : n = c4NodeA ∨ n = c4NodeC := by simpa [c4ManagerW] using hn
    rcases hn2 with rfl | rfl
    · norm_num [realCpu, c4NodeA, Node.init]
    · norm_num [realCpu, c4NodeC, Node.init]
  have h := c4_amended c4ManagerW hreal
  exact ⟨h.1, h.2.1⟩

end Lavaudio
